import Mathlib

/-!
Shallow embedding of `src/preprocessing/data_cleaner.py`
(class `MentalHealthDataCleaner`) from the Mental-Health-Predictor
repository, together with theorems about the cleaning pipeline.

A pandas `DataFrame` is modelled column-wise: an association list from
column names to typed columns.  A column is either categorical (object
dtype: each cell an optional string, `none` standing for `NaN`) or
numerical (each cell an optional rational, `none` standing for `NaN`).
Machine floats of the source are modelled as exact rationals: every
constant appearing in the source (0, 0.5, 1, …, medians of small data)
is exactly representable, so no rounding behaviour is lost.
-/

/-- A cell of a categorical (object-dtype) column: `none` is `NaN`. -/
abbrev CatCell := Option String

/-- A cell of a numerical column: `none` is `NaN`. -/
abbrev NumCell := Option ℚ

/-- A typed pandas column. -/
inductive ColData where
  | cat : List CatCell → ColData
  | num : List NumCell → ColData
deriving DecidableEq

/-- A pandas DataFrame: association list from column names to columns. -/
abbrev DataFrame := List (String × ColData)

/-- Column access `df[name]` as a partial lookup (first binding wins, as pandas column
labels are unique). -/
def getCol : DataFrame → String → Option ColData
  | [], _ => none
  | (n, c) :: rest, name => if n = name then some c else getCol rest name

/-- Membership test `name in df.columns`. -/
def hasCol (df : DataFrame) (name : String) : Bool :=
  (getCol df name).isSome

/-- Column assignment `df[name] = col`: replace in place if the column exists, else append
a new column at the end (pandas assignment semantics). -/
def setCol : DataFrame → String → ColData → DataFrame
  | [], name, col => [(name, col)]
  | (n, c) :: rest, name, col =>
      if n = name then (n, col) :: rest else (n, c) :: setCol rest name col

/-- Number of cells in a column. -/
def colLength : ColData → Nat
  | .cat cells => cells.length
  | .num cells => cells.length

/-- Number of rows of the frame (length of its first column). -/
def dfHeight : DataFrame → Nat
  | [] => 0
  | (_, c) :: _ => colLength c

/-- Keep the cells of a list selected by a boolean row mask
(`df[mask]` applied to one column). -/
def applyMask : List Bool → List α → List α
  | b :: bs, c :: cs => if b then c :: applyMask bs cs else applyMask bs cs
  | _, _ => []

/-- Apply a row mask inside a typed column. -/
def maskCol (mask : List Bool) : ColData → ColData
  | .cat cells => .cat (applyMask mask cells)
  | .num cells => .num (applyMask mask cells)

/-- Row filtering `df = df[mask]`: apply a boolean row mask to every column. -/
def filterRows (mask : List Bool) (df : DataFrame) : DataFrame :=
  df.map (fun e => (e.1, maskCol mask e.2))

/-- View a column through a string-valued elementwise operation, the way
pandas `Series.map`/`==` treat it: a categorical column gives its cells,
while every cell of a numerical column behaves as a non-string
(no string key matches it, every string comparison is `False`). -/
def asCatCells : ColData → List CatCell
  | .cat cells => cells
  | .num cells => cells.map (fun _ => none)

/-- Lookup in a Python `dict` literal given as an association list.
Python dict-literal semantics: a later binding of the same key
overwrites an earlier one, hence the `foldl`. -/
def dictLookup (table : List (String × α)) (key : String) : Option α :=
  table.foldl (fun acc p => if p.1 = key then some p.2 else acc) none

/-- Embeds `pandas.Series.median` of the non-missing values of a column:
sort ascending; odd count takes the middle element, even count the mean
of the two middle elements; an empty list of observations has no median
(pandas returns `NaN`). -/
def medianQ (l : List ℚ) : Option ℚ :=
  let s := l.insertionSort (· ≤ ·)
  let n := s.length
  if n = 0 then none
  else if n % 2 = 1 then some (s.getD (n / 2) 0)
  else some ((s.getD (n / 2 - 1) 0 + s.getD (n / 2) 0) / 2)

/-- Embeds `Series.fillna(series.median())` on a numerical column.  When there
is no observed value the median is `NaN` and `fillna(NaN)` leaves the
column unchanged. -/
def fillMedianCol (cells : List NumCell) : List NumCell :=
  match medianQ (cells.filterMap id) with
  | some m => cells.map (fun c => some (c.getD m))
  | none => cells

-- sanity checks on the table model
example : getCol [("a", ColData.cat [some "x"])] "a" = some (ColData.cat [some "x"]) := by decide
example : applyMask [true, false, true] [1, 2, 3] = [1, 3] := by decide
example : dictLookup [("k", 1), ("k", 2)] "k" = some 2 := by decide
example : medianQ [3, 1, 2] = some 2 := by decide

/-! ## `identify_column_types` -/

/-- Embeds `identify_column_types`: the names of the object-dtype columns with
`Timestamp` and `comments` removed (each removal is a no-op when the
name is absent), paired with the names of the numeric-dtype columns. -/
def identifyColumnTypes (df : DataFrame) : List String × List String :=
  let categorical_columns :=
    df.filterMap (fun e => match e.2 with | ColData.cat _ => some e.1 | ColData.num _ => none)
  let numerical_columns :=
    df.filterMap (fun e => match e.2 with | ColData.num _ => some e.1 | ColData.cat _ => none)
  (((categorical_columns.erase "Timestamp").erase "comments"), numerical_columns)

/-! ## `clean_gender_column` -/

/-- The `gender_mapping` dict literal of `clean_gender_column`, in
source order.  Note the key `Male-ish` is bound twice in the source
(first to `Male`, then to `Other`); `dictLookup` reproduces the Python
dict-literal semantics in which the later binding wins. -/
def gender_mapping : List (String × String) :=
  [("Male", "Male"),
   ("M", "Male"),
   ("male", "Male"),
   ("m", "Male"),
   ("maile", "Male"),
   ("Male-ish", "Male"),
   ("Cis Male", "Male"),
   ("Female", "Female"),
   ("F", "Female"),
   ("female", "Female"),
   ("f", "Female"),
   ("Cis Female", "Female"),
   ("Trans-female", "Transgender"),
   ("something kinda male?", "Other"),
   ("Male-ish", "Other"),
   ("Guy (-ish) ^_^", "Other"),
   ("Enby", "Other"),
   ("non-binary", "Other"),
   ("Nah", "Other"),
   ("All", "Other"),
   ("ostensibly male, unsure what that really means", "Other")]

/-- One cell of `df['Gender'].map(gender_mapping).fillna('Other')`:
a key found in the dict is replaced by its value; a missing cell or a
string that is not a key maps to `NaN` and is then filled with
`Other`. -/
def cleanGenderCell (c : CatCell) : String :=
  (c.bind (dictLookup gender_mapping)).getD "Other"

/-- Embeds `clean_gender_column`: rewrite the `Gender` column cell by cell.
The bare `df['Gender']` access raises a `KeyError` when the column is
absent. -/
def cleanGenderColumnDF (df : DataFrame) : Except String DataFrame :=
  match getCol df "Gender" with
  | none => .error "KeyError: Gender"
  | some col =>
      .ok (setCol df "Gender" (.cat ((asCatCells col).map (fun c => some (cleanGenderCell c)))))

/-! ## `clean_age_column` -/

/-- One cell of `pd.to_numeric(df['Age'], errors='coerce')`: a numeric
cell is kept, a string cell is parsed as a number and a parse failure
becomes `NaN`.  (Integer literals cover every age value; fractional
text is out of scope for the claims.) -/
def toNumericCell (c : CatCell) : NumCell :=
  c.bind (fun s => (s.toInt?).map (fun i => (i : ℚ)))

/-- Embeds `pd.to_numeric` over a whole column. -/
def toNumericCol : ColData → List NumCell
  | .cat cells => cells.map toNumericCell
  | .num cells => cells

/-- The row predicate `(df['Age'] >= 15) & (df['Age'] <= 80)`:
a `NaN` age satisfies neither comparison. -/
def ageKeep : NumCell → Bool
  | some a => decide (15 ≤ a ∧ a ≤ 80)
  | none => false

/-- Embeds `clean_age_column`: coerce `Age` to numeric, drop every row whose
age is not in `[15, 80]`, then fill the (by then nonexistent) missing
ages with the post-filter median. -/
def cleanAgeColumnDF (df : DataFrame) : Except String DataFrame :=
  match getCol df "Age" with
  | none => .error "KeyError: Age"
  | some col =>
      let nums := toNumericCol col
      let df1 := setCol df "Age" (.num nums)
      let mask := nums.map ageKeep
      let kept := applyMask mask nums
      .ok (setCol (filterRows mask df1) "Age" (.num (fillMedianCol kept)))

/-! ## `create_target_variable` -/

/-- The `risk_conditions` boolean row expression of
`create_target_variable`, on the four source cells of one row.  In the
source, `&` binds tighter than `|`, so the family-history clause is a
conjunction inside the disjunction chain.  A `NaN` cell compares
unequal to every string and `isin` of a `NaN` is `False`. -/
def riskCondition (treatment work_interfere mental_health_consequence family_history : CatCell) : Bool :=
  (treatment == some "Yes") ||
  (work_interfere == some "Often") ||
  (mental_health_consequence == some "Yes") ||
  ((family_history == some "Yes") &&
    (work_interfere == some "Sometimes" || work_interfere == some "Often"))

/-- Embeds `risk_conditions.astype(int)` on one row. -/
def createTargetCell (treatment work_interfere mental_health_consequence family_history : CatCell) : ℚ :=
  ((riskCondition treatment work_interfere mental_health_consequence family_history).toNat : ℚ)

/-- Zip four parallel columns row by row. -/
def zipWith4 (f : α → β → γ → δ → ε) : List α → List β → List γ → List δ → List ε
  | a :: as, b :: bs, c :: cs, d :: ds => f a b c d :: zipWith4 f as bs cs ds
  | _, _, _, _ => []

/-- Embeds `create_target_variable`: evaluate `risk_conditions` rowwise over
the four source columns (each bare access raises `KeyError` when the
column is absent, in source order) and store the result as the integer
column `mental_health_risk`. -/
def createTargetVariableDF (df : DataFrame) : Except String DataFrame :=
  match getCol df "treatment" with
  | none => .error "KeyError: treatment"
  | some tcol =>
  match getCol df "work_interfere" with
  | none => .error "KeyError: work_interfere"
  | some wcol =>
  match getCol df "mental_health_consequence" with
  | none => .error "KeyError: mental_health_consequence"
  | some mcol =>
  match getCol df "family_history" with
  | none => .error "KeyError: family_history"
  | some fcol =>
      let risks := zipWith4 (fun t w m f => some (createTargetCell t w m f))
        (asCatCells tcol) (asCatCells wcol) (asCatCells mcol) (asCatCells fcol)
      .ok (setCol df "mental_health_risk" (.num risks))

/-! ## `handle_missing_values` -/

/-- Embeds `handle_missing_values`: every column listed in
`self.categorical_columns` and present in the frame gets
`fillna('Unknown')`; every column listed in `self.numerical_columns`,
present and different from `mental_health_risk`, gets
`fillna(median)`.  The two loops of the source touch disjoint columns
(the two name lists come from disjoint dtypes), so they are rendered as
one pass over the frame; a column in neither list is untouched. -/
def handleMissingCol (categorical_columns numerical_columns : List String)
    (name : String) : ColData → ColData
  | ColData.cat cells =>
      if name ∈ categorical_columns then
        ColData.cat (cells.map (fun c => some (c.getD "Unknown")))
      else ColData.cat cells
  | ColData.num cells =>
      if name ∈ numerical_columns ∧ name ≠ "mental_health_risk" then
        ColData.num (fillMedianCol cells)
      else ColData.num cells

/-- The whole `handle_missing_values` pass: apply `handleMissingCol` to
every column of the frame (column names are untouched). -/
def handleMissingValuesDF (categorical_columns numerical_columns : List String)
    (df : DataFrame) : DataFrame :=
  df.map (fun e => (e.1, handleMissingCol categorical_columns numerical_columns e.1 e.2))

-- sanity checks against the source behaviour
example : cleanGenderCell (some "M") = "Male" := by decide
example : cleanGenderCell (some "non-binary") = "Other" := by decide
example : cleanGenderCell none = "Other" := by decide
example : cleanGenderCell (some "unrecognized text") = "Other" := by decide
example : cleanGenderCell (some "Male-ish") = "Other" := by decide
example : riskCondition (some "No") (some "Sometimes") (some "No") (some "Yes") = true := by decide
example : riskCondition (some "No") (some "Never") (some "No") (some "No") = false := by decide
example : riskCondition none none none none = false := by decide

/-! ## `encode_categorical_variables` (sklearn `LabelEncoder`) -/

/-- Lexicographic comparison of character lists by code point. -/
def charListLe : List Char → List Char → Bool
  | [], _ => true
  | _ :: _, [] => false
  | a :: as, b :: bs =>
      if a.toNat < b.toNat then true
      else if b.toNat < a.toNat then false
      else charListLe as bs

/-- Code-point lexicographic string order, the order `numpy.unique`
sorts by. -/
def strLeb (a b : String) : Bool := charListLe a.data b.data

/-- Embeds `LabelEncoder.fit`: `classes_` is the sorted list of distinct
observed values (`numpy.unique`). -/
def leClasses (vals : List String) : List String :=
  (vals.dedup).insertionSort (fun a b => strLeb a b = true)

/-- Embeds `LabelEncoder.transform` of one value already seen at fit time:
its index in `classes_`. -/
def leTransform (classes : List String) (v : String) : ℕ :=
  classes.indexOf v

/-- Embeds `LabelEncoder.inverse_transform` of one code: the class stored at
that index. -/
def leInverse (classes : List String) (i : ℕ) : Option String :=
  classes.get? i

/-- Embeds `df[col].astype(str)`: a missing cell prints as the string
`nan`, a numeric cell as its decimal text. -/
def cellAsStr : ColData → List String
  | .cat cells => cells.map (fun c => c.getD "nan")
  | .num cells => cells.map (fun c => match c with | some q => toString q | none => "nan")

/-- Embeds `encode_categorical_variables`: for each name in
`self.categorical_columns` present in the frame, fit a `LabelEncoder`
on the column rendered as strings and replace the column by the integer
codes. -/
def encodeStep (d : DataFrame) (col : String) : DataFrame :=
  match getCol d col with
  | none => d
  | some c =>
      let strs := cellAsStr c
      let classes := leClasses strs
      setCol d col (.num (strs.map (fun s => some ((leTransform classes s : ℕ) : ℚ))))

/-- The loop of `encode_categorical_variables`: one `encodeStep` per
listed column name. -/
def encodeCategoricalVariablesDF (categorical_columns : List String)
    (df : DataFrame) : DataFrame :=
  categorical_columns.foldl encodeStep df

/-! ## `create_feature_engineering` -/

/-- The `work_stress_mapping` dict literal. -/
def work_stress_mapping : List (String × ℚ) :=
  [("Never", 0), ("Rarely", 1), ("Sometimes", 2), ("Often", 3)]

/-- The `company_size_mapping` dict literal. -/
def company_size_mapping : List (String × ℚ) :=
  [("1-5", 1), ("6-25", 2), ("26-100", 3), ("100-500", 4),
   ("500-1000", 5), ("More than 1000", 6)]

/-- The five `support_features` column names, in source order. -/
def support_features : List String :=
  ["benefits", "care_options", "wellness_program", "seek_help", "anonymity"]

/-- The `support_mapping` dict literal `{Yes: 1, No: 0, Don\x27t know: 0.5,
Not sure: 0.5}`. -/
def support_mapping : List (String × ℚ) :=
  [("Yes", 1), ("No", 0), ("Don\x27t know", 0.5), ("Not sure", 0.5)]

/-- One cell of `df[feature].map(support_mapping).fillna(0)`. -/
def supportContribution (c : CatCell) : ℚ :=
  (c.bind (dictLookup support_mapping)).getD 0

/-- The support-score computation of `create_feature_engineering`,
viewed on one row.  `present f` is `none` when column `f` is absent
from the frame (the `if feature in df.columns` guard skips it) and
`some c` when it holds cell `c` in this row.  The accumulator starts at
the scalar `0` and the final sum is divided by
`len(support_features)`, i.e. by 5, however many of the five columns
exist. -/
def supportScore (present : String → Option CatCell) : ℚ :=
  (support_features.foldl
    (fun acc f => match present f with
      | none => acc
      | some c => acc + supportContribution c) 0) / (support_features.length : ℚ)

/-- Embeds `create_feature_engineering`: derive `is_remote_worker`,
`work_stress_level`, `company_size_category` and
`mental_health_support_score`.  The bare accesses `df['remote_work']`,
`df['work_interfere']` and `df['no_employees']` raise `KeyError` when
absent; only the five support columns are membership-guarded.  The
support score is built column-wise exactly as in the source: a scalar
`0` accumulator (a row of zeros), plus each present support column
mapped through `support_mapping` and `fillna(0)`, divided by 5. -/
def createFeatureEngineeringDF (df : DataFrame) : Except String DataFrame :=
  match getCol df "remote_work" with
  | none => .error "KeyError: remote_work"
  | some rw =>
  let df1 := setCol df "is_remote_worker"
    (.num ((asCatCells rw).map (fun c => some (((c == some "Yes").toNat : ℚ)))))
  match getCol df1 "work_interfere" with
  | none => .error "KeyError: work_interfere"
  | some wi =>
  let df2 := setCol df1 "work_stress_level"
    (.num ((asCatCells wi).map (fun c => some ((c.bind (dictLookup work_stress_mapping)).getD 1))))
  match getCol df2 "no_employees" with
  | none => .error "KeyError: no_employees"
  | some ne =>
  let df3 := setCol df2 "company_size_category"
    (.num ((asCatCells ne).map (fun c => some ((c.bind (dictLookup company_size_mapping)).getD 3))))
  let support_score := support_features.foldl
    (fun acc f => match getCol df3 f with
      | none => acc
      | some col => List.zipWith (· + ·) acc ((asCatCells col).map supportContribution))
    (List.replicate (dfHeight df3) (0 : ℚ))
  .ok (setCol df3 "mental_health_support_score"
    (.num (support_score.map (fun q => some (q / (support_features.length : ℚ))))))

/-! ## `select_features` -/

/-- The fixed `feature_columns` candidate list of `select_features`,
in source order (25 names). -/
def feature_columns : List String :=
  ["Age", "Gender", "family_history", "work_interfere", "no_employees",
   "remote_work", "tech_company", "benefits", "care_options", "wellness_program",
   "seek_help", "anonymity", "leave", "mental_health_consequence",
   "phys_health_consequence", "coworkers", "supervisor", "mental_health_interview",
   "phys_health_interview", "mental_vs_physical", "obs_consequence",
   "is_remote_worker", "work_stress_level", "company_size_category",
   "mental_health_support_score"]

/-- The ordered column-name list produced by `select_features` on a
frame with the given column names: the candidates present, in declared
order, then the target. -/
def selectFeatureNames (cols : List String) : List String :=
  (feature_columns.filter (fun c => c ∈ cols)) ++ ["mental_health_risk"]

/-- Projection `df[names]`: project a frame onto a list of column names, in that
order; an absent name raises a `KeyError`. -/
def projectCols (df : DataFrame) : List String → Except String DataFrame
  | [] => .ok []
  | n :: ns =>
      match getCol df n with
      | some c => (projectCols df ns).map (fun rest => (n, c) :: rest)
      | none => .error ("KeyError: " ++ n)

/-- Embeds `select_features`: project the frame onto the present candidate
columns followed by `mental_health_risk` (`df[final_columns]` raises
`KeyError` on a missing name — only the target can be missing, since
the candidates were filtered for presence). -/
def selectFeaturesDF (df : DataFrame) : Except String DataFrame :=
  let available_features := feature_columns.filter (fun c => hasCol df c)
  let final_columns := available_features ++ ["mental_health_risk"]
  projectCols df final_columns

/-! ## `clean_data` (the pipeline) -/

/-- Embeds `clean_data` after `load_data`: classify column types on the raw
frame, then run the cleaning steps in source order.  A step that
indexes an absent column propagates its `KeyError`. -/
def cleanDataDF (df : DataFrame) : Except String DataFrame := do
  let cols := identifyColumnTypes df
  let df1 ← cleanGenderColumnDF df
  let df2 ← cleanAgeColumnDF df1
  let df3 ← createTargetVariableDF df2
  let df4 := handleMissingValuesDF cols.1 cols.2 df3
  let df5 ← createFeatureEngineeringDF df4
  let df6 := encodeCategoricalVariablesDF cols.1 df5
  selectFeaturesDF df6

-- sanity checks
example : leClasses ["No", "Yes", "No"] = ["No", "Yes"] := by decide
example : selectFeatureNames ["Age", "Gender"] = ["Age", "Gender", "mental_health_risk"] := by decide
example : supportScore (fun _ => some (some "Yes")) = 1 := by
  simp [supportScore, support_features, supportContribution, dictLookup,
    support_mapping, List.foldl]
  norm_num

/-- Variant of `clean_age_column` with the median-fill step removed: coerce,
filter by the `[15, 80]` mask, and stop. -/
def cleanAgeColumnNoFillDF (df : DataFrame) : Except String DataFrame :=
  match getCol df "Age" with
  | none => .error "KeyError: Age"
  | some col =>
      let nums := toNumericCol col
      let df1 := setCol df "Age" (.num nums)
      let mask := nums.map ageKeep
      .ok (filterRows mask df1)

/-! ## Concrete sample tables used by witnesses and counterexamples -/

/-- A table whose only numerical column consists entirely of missing
values. -/
def dfAllMissingNum : DataFrame := [("x", ColData.num [none])]

/-- A small table with an in-range age, an out-of-range age and a
missing age. -/
def dfAgeSample : DataFrame :=
  [("Age", ColData.num [some 30, some 999, none]),
   ("treatment", ColData.cat [some "Yes", some "No", some "No"])]

/-- A table holding the four label-source columns, including missing
cells. -/
def dfTargetSample : DataFrame :=
  [("treatment", ColData.cat [some "No", some "Yes", none]),
   ("work_interfere", ColData.cat [some "Sometimes", none, none]),
   ("mental_health_consequence", ColData.cat [some "No", some "No", none]),
   ("family_history", ColData.cat [some "Yes", some "No", none])]

/-- A mixed table: a categorical column with a missing cell sits
beside an entirely-missing numerical column and a partly observed
numerical column. -/
def dfImputeSample : DataFrame :=
  [("Gender", ColData.cat [some "M", none]),
   ("self_employed", ColData.num [none, none]),
   ("Age", ColData.num [some 30, none])]

/-- A table containing the target and one candidate feature. -/
def dfSelectSample : DataFrame :=
  [("Age", ColData.num [some 30]),
   ("mental_health_risk", ColData.num [some 1])]

/-- A table holding exactly the eight columns the pipeline indexes
without a presence guard, and none of the five support columns. -/
def dfNoSupportCols : DataFrame :=
  [("Gender", ColData.cat [some "M"]),
   ("Age", ColData.num [some 30]),
   ("treatment", ColData.cat [some "No"]),
   ("work_interfere", ColData.cat [some "Never"]),
   ("mental_health_consequence", ColData.cat [some "No"]),
   ("family_history", ColData.cat [some "No"]),
   ("remote_work", ColData.cat [some "Yes"]),
   ("no_employees", ColData.cat [some "6-25"])]

/-- Table `dfNoSupportCols` with the `Gender` column removed. -/
def dfNoGenderCol : DataFrame :=
  [("Age", ColData.num [some 30]),
   ("treatment", ColData.cat [some "No"]),
   ("work_interfere", ColData.cat [some "Never"]),
   ("mental_health_consequence", ColData.cat [some "No"]),
   ("family_history", ColData.cat [some "No"]),
   ("remote_work", ColData.cat [some "Yes"]),
   ("no_employees", ColData.cat [some "6-25"])]

/-! ## Helper lemmas about the table model -/

lemma getCol_setCol_self (df : DataFrame) (name : String) (col : ColData) :
    getCol (setCol df name col) name = some col := by
  induction df with
  | nil => simp [setCol, getCol]
  | cons e rest ih =>
      obtain ⟨n, c⟩ := e
      by_cases h : n = name
      · simp [setCol, h, getCol]
      · simp [setCol, h, getCol, ih]

lemma getCol_setCol_ne (df : DataFrame) (name n : String) (col : ColData)
    (h : n ≠ name) : getCol (setCol df n col) name = getCol df name := by
  induction df with
  | nil => simp [setCol, getCol, h]
  | cons e rest ih =>
      obtain ⟨m, c⟩ := e
      by_cases hm : m = n
      · subst hm
        simp [setCol, getCol, h]
      · simp [setCol, hm, getCol, ih]

lemma setCol_eq_of_getCol (df : DataFrame) (n : String) (c : ColData)
    (h : getCol df n = some c) : setCol df n c = df := by
  induction df with
  | nil => simp [getCol] at h
  | cons e rest ih =>
      obtain ⟨m, c'⟩ := e
      by_cases hm : m = n
      · simp [getCol, hm] at h
        simp [setCol, hm, h]
      · simp [getCol, hm] at h
        simp [setCol, hm, ih h]

lemma getCol_filterRows (mask : List Bool) (df : DataFrame) (name : String) :
    getCol (filterRows mask df) name = (getCol df name).map (maskCol mask) := by
  induction df with
  | nil => simp [filterRows, getCol]
  | cons e rest ih =>
      obtain ⟨n, c⟩ := e
      by_cases h : n = name
      · simp [filterRows, getCol, h]
      · simpa [filterRows, getCol, h] using ih

lemma applyMask_map (p : α → Bool) (l : List α) :
    applyMask (l.map p) l = l.filter p := by
  induction l with
  | nil => simp [applyMask]
  | cons a as ih =>
      cases hpa : p a <;> simp [applyMask, List.filter_cons, hpa, ih]

lemma fillMedianCol_allSome (cells : List NumCell)
    (h : ∀ c ∈ cells, c.isSome) : fillMedianCol cells = cells := by
  unfold fillMedianCol
  cases hm : medianQ (cells.filterMap id) with
  | none => rfl
  | some m =>
      conv_rhs => rw [← List.map_id cells]
      refine List.map_congr_left (fun c hc => ?_)
      rcases c with _ | a
      · exact absurd (h none hc) (by simp)
      · rfl

lemma medianQ_isSome (l : List ℚ) (h : l ≠ []) : (medianQ l).isSome := by
  unfold medianQ
  have hlen : (l.insertionSort (fun a b => a ≤ b)).length = l.length :=
    List.length_insertionSort _ _
  dsimp only
  split_ifs with h0 h1
  · exact absurd (List.length_eq_zero.1 (hlen ▸ h0)) h
  · simp
  · simp

lemma fillMedianCol_noMissing (cells : List NumCell)
    (h : cells = [] ∨ cells.any Option.isSome = true) :
    (fillMedianCol cells).all Option.isSome = true := by
  rcases h with h | h
  · subst h; rfl
  · have : cells.filterMap id ≠ [] := by
      rcases List.any_eq_true.1 h with ⟨c, hc, hs⟩
      rcases c with _ | a
      · simp at hs
      · intro hnil
        have : a ∈ cells.filterMap id := List.mem_filterMap.2 ⟨some a, hc, rfl⟩
        simp [hnil] at this
    unfold fillMedianCol
    rcases hm : medianQ (cells.filterMap id) with _ | m
    · exact absurd (hm ▸ medianQ_isSome _ this) (by simp)
    · simp

lemma mem_zipWith4 {α β γ δ ε : Type _} {f : α → β → γ → δ → ε} :
    ∀ (as : List α) (bs : List β) (cs : List γ) (ds : List δ) (x : ε),
      x ∈ zipWith4 f as bs cs ds → ∃ a b c d, x = f a b c d
  | a :: as, b :: bs, c :: cs, d :: ds, x, hx => by
      simp only [zipWith4, List.mem_cons] at hx
      rcases hx with h | h
      · exact ⟨a, b, c, d, h⟩
      · exact mem_zipWith4 as bs cs ds x h
  | [], _, _, _, x, hx => by simp [zipWith4] at hx
  | _ :: _, [], _, _, x, hx => by simp [zipWith4] at hx
  | _ :: _, _ :: _, [], _, x, hx => by simp [zipWith4] at hx
  | _ :: _, _ :: _, _ :: _, [], x, hx => by simp [zipWith4] at hx

lemma hasCol_iff (df : DataFrame) (c : String) :
    hasCol df c = true ↔ c ∈ df.map Prod.fst := by
  induction df with
  | nil => simp [hasCol, getCol]
  | cons e rest ih =>
      obtain ⟨n, cd⟩ := e
      simp only [hasCol] at ih
      by_cases h : n = c
      · subst h
        simp [hasCol, getCol]
      · have h' : ¬ c = n := fun hc => h hc.symm
        simp [hasCol, getCol, h, h', ih]

lemma projectCols_ok (df : DataFrame) :
    ∀ names, (∀ n ∈ names, hasCol df n = true) →
      ∃ out, projectCols df names = Except.ok out ∧
        out.map Prod.fst = names ∧ ∀ p ∈ out, getCol df p.1 = some p.2
  | [], _ => ⟨[], rfl, rfl, by simp⟩
  | n :: ns, h => by
      have hn : (getCol df n).isSome := h n (by simp)
      rcases hg : getCol df n with _ | c
      · rw [hg] at hn; simp at hn
      · rcases projectCols_ok df ns (fun m hm => h m (by simp [hm])) with
          ⟨out, hout, hfst, hget⟩
        refine ⟨(n, c) :: out, ?_, by simp [hfst], ?_⟩
        · simp [projectCols, hg, hout, Except.map]
        · intro p hp
          rcases List.mem_cons.1 hp with hp | hp
          · subst hp; exact hg
          · exact hget p hp

lemma createTargetCell_zero_or_one (t w m f : CatCell) :
    createTargetCell t w m f = 1 ∨ createTargetCell t w m f = 0 := by
  unfold createTargetCell
  cases riskCondition t w m f <;> simp

lemma foldl_match_sum (present : String → Option CatCell) :
    ∀ (l : List String) (acc : ℚ),
      l.foldl (fun a f => match present f with
        | none => a
        | some c => a + supportContribution c) acc
        = acc + (l.map (fun f => match present f with
            | none => 0
            | some c => supportContribution c)).sum
  | [], acc => by simp
  | f :: fs, acc => by
      cases hf : present f <;>
        simp only [List.foldl_cons, List.map_cons, List.sum_cons, hf] <;>
        rw [foldl_match_sum present fs] <;> ring

lemma filter_ageKeep_allSome (nums : List NumCell) :
    ∀ c ∈ nums.filter ageKeep, c.isSome := by
  intro c hc
  have hk := (List.mem_filter.1 hc).2
  rcases c with _ | a
  · simp [ageKeep] at hk
  · rfl

lemma fillMedianCol_filter_ageKeep (nums : List NumCell) :
    fillMedianCol (nums.filter ageKeep) = nums.filter ageKeep :=
  fillMedianCol_allSome _ (filter_ageKeep_allSome nums)

/-! ## Step-summary lemmas for the pipeline -/

lemma exceptBind_ok {α β : Type} (x : α) (f : α → Except String β) :
    (Except.ok x : Except String α) >>= f = f x := rfl

lemma exceptBind_error {α β : Type} (e : String) (f : α → Except String β) :
    (Except.error e : Except String α) >>= f = Except.error e := rfl

lemma hasCol_some (df : DataFrame) (m : String) (h : hasCol df m = true) :
    ∃ c, getCol df m = some c := by
  rcases hg : getCol df m with _ | c
  · exact absurd h (by simp [hasCol, hg])
  · exact ⟨c, rfl⟩

lemma getCol_hasCol (df : DataFrame) (m : String) (c : ColData)
    (h : getCol df m = some c) : hasCol df m = true := by
  simp [hasCol, h]

lemma getCol_handleMissing (a b : List String) (df : DataFrame) (m : String) :
    getCol (handleMissingValuesDF a b df) m
      = (getCol df m).map (handleMissingCol a b m) := by
  induction df with
  | nil => simp [handleMissingValuesDF, getCol]
  | cons e rest ih =>
      obtain ⟨n, c⟩ := e
      by_cases h : n = m
      · subst h
        simp [handleMissingValuesDF, getCol]
      · simpa [handleMissingValuesDF, getCol, h] using ih

lemma cleanGender_summary (df : DataFrame) (g : ColData)
    (hg : getCol df "Gender" = some g) :
    ∃ df', cleanGenderColumnDF df = Except.ok df' ∧
      hasCol df' "Gender" = true ∧
      ∀ m, m ≠ "Gender" → getCol df' m = getCol df m := by
  refine ⟨setCol df "Gender"
      (.cat ((asCatCells g).map (fun c => some (cleanGenderCell c)))), ?_, ?_, ?_⟩
  · simp [cleanGenderColumnDF, hg]
  · simp [hasCol, getCol_setCol_self]
  · intro m hm
    exact getCol_setCol_ne df m "Gender" _ (Ne.symm hm)

lemma cleanAge_error (df : DataFrame) (h : getCol df "Age" = none) :
    cleanAgeColumnDF df = Except.error "KeyError: Age" := by
  simp [cleanAgeColumnDF, h]

lemma cleanAge_summary (df : DataFrame) (a : ColData)
    (ha : getCol df "Age" = some a) :
    ∃ df', cleanAgeColumnDF df = Except.ok df' ∧
      hasCol df' "Age" = true ∧
      ∀ m, m ≠ "Age" → getCol df' m =
        (getCol df m).map (maskCol ((toNumericCol a).map ageKeep)) := by
  refine ⟨setCol (filterRows ((toNumericCol a).map ageKeep)
      (setCol df "Age" (ColData.num (toNumericCol a)))) "Age"
      (ColData.num (fillMedianCol
        (applyMask ((toNumericCol a).map ageKeep) (toNumericCol a)))), ?_, ?_, ?_⟩
  · simp [cleanAgeColumnDF, ha]
  · simp [hasCol, getCol_setCol_self]
  · intro m hm
    rw [getCol_setCol_ne _ _ _ _ (Ne.symm hm), getCol_filterRows,
      getCol_setCol_ne _ _ _ _ (Ne.symm hm)]

lemma createTarget_error_treatment (df : DataFrame)
    (h : getCol df "treatment" = none) :
    createTargetVariableDF df = Except.error "KeyError: treatment" := by
  simp [createTargetVariableDF, h]

lemma createTarget_error_work (df : DataFrame) (tc : ColData)
    (ht : getCol df "treatment" = some tc)
    (h : getCol df "work_interfere" = none) :
    createTargetVariableDF df = Except.error "KeyError: work_interfere" := by
  simp [createTargetVariableDF, ht, h]

lemma createTarget_error_mhc (df : DataFrame) (tc wc : ColData)
    (ht : getCol df "treatment" = some tc)
    (hw : getCol df "work_interfere" = some wc)
    (h : getCol df "mental_health_consequence" = none) :
    createTargetVariableDF df = Except.error "KeyError: mental_health_consequence" := by
  simp [createTargetVariableDF, ht, hw, h]

lemma createTarget_error_family (df : DataFrame) (tc wc mc : ColData)
    (ht : getCol df "treatment" = some tc)
    (hw : getCol df "work_interfere" = some wc)
    (hm : getCol df "mental_health_consequence" = some mc)
    (h : getCol df "family_history" = none) :
    createTargetVariableDF df = Except.error "KeyError: family_history" := by
  simp [createTargetVariableDF, ht, hw, hm, h]

lemma createTarget_summary (df : DataFrame) (tc wc mc fc : ColData)
    (ht : getCol df "treatment" = some tc)
    (hw : getCol df "work_interfere" = some wc)
    (hm : getCol df "mental_health_consequence" = some mc)
    (hf : getCol df "family_history" = some fc) :
    ∃ df', createTargetVariableDF df = Except.ok df' ∧
      hasCol df' "mental_health_risk" = true ∧
      ∀ m, m ≠ "mental_health_risk" → getCol df' m = getCol df m := by
  refine ⟨setCol df "mental_health_risk"
      (.num (zipWith4 (fun t w m f => some (createTargetCell t w m f))
        (asCatCells tc) (asCatCells wc) (asCatCells mc) (asCatCells fc))), ?_, ?_, ?_⟩
  · simp [createTargetVariableDF, ht, hw, hm, hf]
  · simp [hasCol, getCol_setCol_self]
  · intro m hm'
    exact getCol_setCol_ne _ _ _ _ (Ne.symm hm')

lemma featEng_error_remote (df : DataFrame)
    (h : getCol df "remote_work" = none) :
    createFeatureEngineeringDF df = Except.error "KeyError: remote_work" := by
  simp [createFeatureEngineeringDF, h]

lemma featEng_error_no_employees (df : DataFrame) (rwc wic : ColData)
    (hr : getCol df "remote_work" = some rwc)
    (hw : getCol df "work_interfere" = some wic)
    (hn : getCol df "no_employees" = none) :
    createFeatureEngineeringDF df = Except.error "KeyError: no_employees" := by
  have hw1 : getCol (setCol df "is_remote_worker"
      (ColData.num ((asCatCells rwc).map
        (fun c => some (((c == some "Yes").toNat : ℚ)))))) "work_interfere"
      = some wic := by
    rw [getCol_setCol_ne _ _ _ _ (by decide)]
    exact hw
  have hn2 : getCol (setCol (setCol df "is_remote_worker"
      (ColData.num ((asCatCells rwc).map
        (fun c => some (((c == some "Yes").toNat : ℚ))))))
      "work_stress_level"
      (ColData.num ((asCatCells wic).map
        (fun c => some ((c.bind (dictLookup work_stress_mapping)).getD 1)))))
      "no_employees" = none := by
    rw [getCol_setCol_ne _ _ _ _ (by decide), getCol_setCol_ne _ _ _ _ (by decide)]
    exact hn
  simp [createFeatureEngineeringDF, hr, hw1, hn2]

lemma featEng_summary (df : DataFrame) (rwc wic nec : ColData)
    (hr : getCol df "remote_work" = some rwc)
    (hw : getCol df "work_interfere" = some wic)
    (hn : getCol df "no_employees" = some nec) :
    ∃ df', createFeatureEngineeringDF df = Except.ok df' ∧
      ∀ m, m ≠ "is_remote_worker" → m ≠ "work_stress_level" →
        m ≠ "company_size_category" → m ≠ "mental_health_support_score" →
        getCol df' m = getCol df m := by
  have hw1 : getCol (setCol df "is_remote_worker"
      (ColData.num ((asCatCells rwc).map
        (fun c => some (((c == some "Yes").toNat : ℚ)))))) "work_interfere"
      = some wic := by
    rw [getCol_setCol_ne _ _ _ _ (by decide)]
    exact hw
  have hn2 : getCol (setCol (setCol df "is_remote_worker"
      (ColData.num ((asCatCells rwc).map
        (fun c => some (((c == some "Yes").toNat : ℚ))))))
      "work_stress_level"
      (ColData.num ((asCatCells wic).map
        (fun c => some ((c.bind (dictLookup work_stress_mapping)).getD 1)))))
      "no_employees" = some nec := by
    rw [getCol_setCol_ne _ _ _ _ (by decide), getCol_setCol_ne _ _ _ _ (by decide)]
    exact hn
  simp only [createFeatureEngineeringDF, hr, hw1, hn2]
  refine ⟨_, rfl, ?_⟩
  intro m h1 h2 h3 h4
  rw [getCol_setCol_ne _ _ _ _ (Ne.symm h4), getCol_setCol_ne _ _ _ _ (Ne.symm h3),
    getCol_setCol_ne _ _ _ _ (Ne.symm h2), getCol_setCol_ne _ _ _ _ (Ne.symm h1)]

lemma hasCol_encodeStep (d : DataFrame) (col m : String)
    (h : hasCol d m = true) : hasCol (encodeStep d col) m = true := by
  rcases hg : getCol d col with _ | c
  · simpa [encodeStep, hg] using h
  · by_cases hmc : col = m
    · subst hmc
      simp [encodeStep, hg, hasCol, getCol_setCol_self]
    · simp only [encodeStep, hg, hasCol] at h ⊢
      rw [getCol_setCol_ne _ _ _ _ hmc]
      exact h

lemma hasCol_encodeFold (m : String) :
    ∀ (a : List String) (d : DataFrame), hasCol d m = true →
      hasCol (a.foldl encodeStep d) m = true
  | [], _, h => h
  | col :: rest, d, h =>
      hasCol_encodeFold m rest (encodeStep d col) (hasCol_encodeStep d col m h)

lemma hasCol_encode (a : List String) (d : DataFrame) (m : String)
    (h : hasCol d m = true) :
    hasCol (encodeCategoricalVariablesDF a d) m = true :=
  hasCol_encodeFold m a d h

lemma selectFeaturesDF_ok (df : DataFrame)
    (h : hasCol df "mental_health_risk" = true) :
    ∃ out, selectFeaturesDF df = Except.ok out := by
  have hnames : ∀ n ∈ feature_columns.filter (fun c => hasCol df c)
      ++ ["mental_health_risk"], hasCol df n = true := by
    intro n hn
    rcases List.mem_append.1 hn with hn | hn
    · exact (List.mem_filter.1 hn).2
    · simp at hn
      subst hn
      exact h
  rcases projectCols_ok df _ hnames with ⟨out, hok, _, _⟩
  exact ⟨out, by simpa [selectFeaturesDF] using hok⟩

/-! ## Claim theorems -/

/-- Claim C1 (code bug): the gender cleaner is total — every raw string
in the fixed map is replaced by its mapped value and anything else
resolves to `Other` — but its codomain is NOT the three-element set
{Male, Female, Other}: the source maps the raw string `Trans-female` to
`Transgender`, a fourth value, contradicting the specified 3-element
codomain and the intent of the repository's own test
(`test_clean_gender_column` asserts every cleaned value lies in
{Male, Female, Other}). -/
theorem claim_C1_gender_codomain :
    cleanGenderCell (some "Trans-female") = "Transgender" ∧
    "Transgender" ∉ (["Male", "Female", "Other"] : List String) := by
  decide

/-- Claim C2: the derived label is 1 exactly when
`treatment = Yes ∨ work_interfere = Often ∨
mental_health_consequence = Yes ∨ (family_history = Yes ∧
work_interfere ∈ {Sometimes, Often})` — the conjunction binding tighter
than the disjunctions — and is 0 otherwise; it is a function of the
four fields only and always lands in {0, 1}. -/
theorem claim_C2_target_formula :
    ∀ t w m f : CatCell,
      (createTargetCell t w m f = 1 ∨ createTargetCell t w m f = 0) ∧
      (createTargetCell t w m f = 1 ↔
        (t = some "Yes" ∨ w = some "Often" ∨ m = some "Yes" ∨
          (f = some "Yes" ∧ (w = some "Sometimes" ∨ w = some "Often")))) := by
  intro t w m f
  have hiff : riskCondition t w m f = true ↔
      (t = some "Yes" ∨ w = some "Often" ∨ m = some "Yes" ∨
        (f = some "Yes" ∧ (w = some "Sometimes" ∨ w = some "Often"))) := by
    simp only [riskCondition, Bool.or_eq_true, Bool.and_eq_true, beq_iff_eq]
    tauto
  refine ⟨createTargetCell_zero_or_one t w m f, ?_⟩
  rw [← hiff]
  unfold createTargetCell
  cases riskCondition t w m f <;> simp

/-- Claim C5: for every row, `mental_health_support_score` is the sum
over the five support columns of the per-column map
{Yes: 1, No: 0, Don\x27t know: 0.5, Not sure: 0.5} — an absent column
contributing 0 to the sum, a missing or unmapped cell contributing 0 —
divided by the constant 5; all five `Yes` gives exactly 1 and all five
`No` exactly 0. -/
theorem claim_C5_support_score :
    (∀ present : String → Option CatCell,
      supportScore present =
        ((support_features.map (fun f => match present f with
          | none => 0
          | some c => supportContribution c)).sum) / 5) ∧
    supportContribution none = 0 ∧
    (∀ s : String, dictLookup support_mapping s = none →
      supportContribution (some s) = 0) ∧
    supportScore (fun _ => some (some "Yes")) = 1 ∧
    supportScore (fun _ => some (some "No")) = 0 := by
  refine ⟨?_, rfl, ?_, ?_, ?_⟩
  · intro present
    unfold supportScore
    rw [foldl_match_sum]
    norm_num [support_features]
  · intro s hs
    simp [supportContribution, hs]
  · simp [supportScore, support_features, supportContribution, dictLookup,
      support_mapping, List.foldl]
    norm_num
  · simp [supportScore, support_features, supportContribution, dictLookup,
      support_mapping, List.foldl]

/-- Claim C5, witness: the theorem applied to a concrete unmapped
string (missing from `support_mapping`), which contributes 0. -/
theorem claim_C5_support_score_witness :
    supportContribution (some "Maybe") = 0 :=
  claim_C5_support_score.2.2.1 "Maybe" (by decide)

/-- Claim C7: per column, encoding a value observed at fit time to its
integer code and decoding that code through the same fitted class list
recovers the original string. -/
theorem claim_C7_roundtrip (vals : List String) (v : String) (h : v ∈ vals) :
    leInverse (leClasses vals) (leTransform (leClasses vals) v) = some v := by
  have hv : v ∈ leClasses vals := by
    unfold leClasses
    rw [List.mem_insertionSort]
    exact List.mem_dedup.2 h
  unfold leInverse leTransform
  exact List.indexOf_get? hv

/-- Claim C7, witness: the round trip evaluated on a concrete observed
value list. -/
theorem claim_C7_roundtrip_witness :
    leInverse (leClasses ["Yes", "No", "Yes"])
      (leTransform (leClasses ["Yes", "No", "Yes"]) "No") = some "No" :=
  claim_C7_roundtrip ["Yes", "No", "Yes"] "No" (by decide)

/-- Claim C3: after age cleaning, the `Age` column consists of exactly
those coerced ages lying in the closed interval `[15, 80]`, in order
and unchanged; every age in range survives; and every other column is
filtered by the same row mask, so out-of-range rows are removed from
the record set entirely. -/
theorem claim_C3_age_filter (df : DataFrame) (col : ColData)
    (h : getCol df "Age" = some col) :
    ∃ dfOut, cleanAgeColumnDF df = Except.ok dfOut ∧
      getCol dfOut "Age" = some (ColData.num ((toNumericCol col).filter ageKeep)) ∧
      (∀ c ∈ (toNumericCol col).filter ageKeep,
        ∃ a : ℚ, c = some a ∧ 15 ≤ a ∧ a ≤ 80) ∧
      (∀ a : ℚ, some a ∈ toNumericCol col → 15 ≤ a → a ≤ 80 →
        some a ∈ (toNumericCol col).filter ageKeep) ∧
      (∀ name c, name ≠ "Age" → getCol df name = some c →
        getCol dfOut name = some (maskCol ((toNumericCol col).map ageKeep) c)) := by
  have hkept : applyMask ((toNumericCol col).map ageKeep) (toNumericCol col)
      = (toNumericCol col).filter ageKeep := applyMask_map _ _
  refine ⟨setCol
      (filterRows ((toNumericCol col).map ageKeep)
        (setCol df "Age" (ColData.num (toNumericCol col))))
      "Age" (ColData.num ((toNumericCol col).filter ageKeep)), ?_, ?_, ?_, ?_, ?_⟩
  · simp only [cleanAgeColumnDF, h]
    rw [hkept, fillMedianCol_filter_ageKeep]
  · exact getCol_setCol_self _ _ _
  · intro c hc
    have hk := (List.mem_filter.1 hc).2
    rcases c with _ | a
    · simp [ageKeep] at hk
    · exact ⟨a, rfl, of_decide_eq_true hk⟩
  · intro a ha h15 h80
    exact List.mem_filter.2 ⟨ha, by simp [ageKeep]; exact ⟨h15, h80⟩⟩
  · intro name c hne hgc
    rw [getCol_setCol_ne _ _ _ _ (Ne.symm hne), getCol_filterRows,
      getCol_setCol_ne _ _ _ _ (Ne.symm hne), hgc]
    rfl

/-- Claim C3, witness: the theorem applied to a concrete table holding
an in-range age, an out-of-range age and a missing age. -/
theorem claim_C3_age_filter_witness :
    ∃ dfOut, cleanAgeColumnDF dfAgeSample = Except.ok dfOut ∧
      getCol dfOut "Age" = some (ColData.num
        ((toNumericCol (ColData.num [some 30, some 999, none])).filter ageKeep)) ∧
      (∀ c ∈ (toNumericCol (ColData.num [some 30, some 999, none])).filter ageKeep,
        ∃ a : ℚ, c = some a ∧ 15 ≤ a ∧ a ≤ 80) ∧
      (∀ a : ℚ, some a ∈ toNumericCol (ColData.num [some 30, some 999, none]) →
        15 ≤ a → a ≤ 80 →
        some a ∈ (toNumericCol (ColData.num [some 30, some 999, none])).filter ageKeep) ∧
      (∀ name c, name ≠ "Age" → getCol dfAgeSample name = some c →
        getCol dfOut name = some (maskCol
          ((toNumericCol (ColData.num [some 30, some 999, none])).map ageKeep) c)) :=
  claim_C3_age_filter dfAgeSample (ColData.num [some 30, some 999, none]) (by decide)

/-- Claim C9: the range filter also removes every missing or
uncoercible age, so no missing `Age` survives it, the median-fill step
is a no-op, and the age cleaner is extensionally equal to the same
function with the fill step removed. -/
theorem claim_C9_fill_noop :
    ∀ df : DataFrame,
      cleanAgeColumnDF df = cleanAgeColumnNoFillDF df ∧
      (∀ col, getCol df "Age" = some col →
        ((toNumericCol col).filter ageKeep).all Option.isSome = true) := by
  intro df
  constructor
  · rcases h : getCol df "Age" with _ | col
    · simp [cleanAgeColumnDF, cleanAgeColumnNoFillDF, h]
    · simp only [cleanAgeColumnDF, cleanAgeColumnNoFillDF, h]
      rw [applyMask_map, fillMedianCol_filter_ageKeep]
      congr 1
      apply setCol_eq_of_getCol
      rw [getCol_filterRows, getCol_setCol_self]
      simp [maskCol, applyMask_map]
  · intro col _
    exact List.all_eq_true.2 (fun c hc => filter_ageKeep_allSome _ c hc)

/-- Claim C9, witness: the extensional equality and the no-missing-age
fact evaluated on a concrete table. -/
theorem claim_C9_fill_noop_witness :
    cleanAgeColumnDF dfAgeSample = cleanAgeColumnNoFillDF dfAgeSample ∧
    ((toNumericCol (ColData.num [some 30, some 999, none])).filter ageKeep).all
      Option.isSome = true :=
  ⟨(claim_C9_fill_noop dfAgeSample).1,
   (claim_C9_fill_noop dfAgeSample).2 (ColData.num [some 30, some 999, none]) (by decide)⟩

/-- Claim C10: whenever label derivation succeeds (the four source
columns are present), every row of the `mental_health_risk` column is
the non-missing value 0 or 1 — also for rows whose source cells are
missing, since a missing cell satisfies no equality or membership
test. -/
theorem claim_C10_label_total (df dfOut : DataFrame)
    (h : createTargetVariableDF df = Except.ok dfOut) :
    ∃ cells, getCol dfOut "mental_health_risk" = some (ColData.num cells) ∧
      ∀ c ∈ cells, c = some 0 ∨ c = some 1 := by
  unfold createTargetVariableDF at h
  rcases ht : getCol df "treatment" with _ | tcol
  · rw [ht] at h; simp at h
  rcases hw : getCol df "work_interfere" with _ | wcol
  · rw [ht, hw] at h; simp at h
  rcases hm : getCol df "mental_health_consequence" with _ | mcol
  · rw [ht, hw, hm] at h; simp at h
  rcases hf : getCol df "family_history" with _ | fcol
  · rw [ht, hw, hm, hf] at h; simp at h
  rw [ht, hw, hm, hf] at h
  have hdf : dfOut = setCol df "mental_health_risk"
      (ColData.num (zipWith4 (fun t w m f => some (createTargetCell t w m f))
        (asCatCells tcol) (asCatCells wcol) (asCatCells mcol) (asCatCells fcol))) :=
    (Except.ok.inj h).symm
  subst hdf
  refine ⟨_, getCol_setCol_self _ _ _, ?_⟩
  intro c hc
  rcases mem_zipWith4 _ _ _ _ c hc with ⟨t, w, m, f, rfl⟩
  rcases createTargetCell_zero_or_one t w m f with h1 | h0
  · right; rw [h1]
  · left; rw [h0]

/-- Claim C10, witness: the theorem applied to a concrete table whose
label-source columns contain missing cells. -/
theorem claim_C10_label_total_witness :
    ∃ cells, getCol
        (setCol dfTargetSample "mental_health_risk"
          (ColData.num [some 1, some 1, some 0]))
        "mental_health_risk" = some (ColData.num cells) ∧
      ∀ c ∈ cells, c = some 0 ∨ c = some 1 :=
  claim_C10_label_total dfTargetSample
    (setCol dfTargetSample "mental_health_risk"
      (ColData.num [some 1, some 1, some 0])) (by rfl)

/-- Claim C4, counterexample: on a table whose (non-label) numerical
column is entirely missing, the column median is undefined (`NaN`), the
`fillna` is a no-op, and the column still contains a missing value
after imputation — refuting the claim that no numerical column other
than the label contains a missing value after this step. -/
theorem claim_C4_counterexample :
    "x" ∈ (identifyColumnTypes dfAllMissingNum).2 ∧
    "x" ≠ "mental_health_risk" ∧
    handleMissingValuesDF (identifyColumnTypes dfAllMissingNum).1
      (identifyColumnTypes dfAllMissingNum).2 dfAllMissingNum
      = [("x", ColData.num [none])] ∧
    (([none] : List NumCell).all Option.isSome = false) := by
  decide

/-- Claim C4 (amended): after missing-value imputation, per column and
for every input table: every categorical column (post classification,
minus the two excluded names) has each missing cell replaced by the
literal `Unknown` and contains no missing value, unconditionally; every
numerical column other than the label is replaced by its
`fillna(median)` image, unconditionally; and such a numerical column
contains no missing value PROVIDED that column itself is empty or has
at least one observed value (an entirely-missing numerical column has
an undefined median and keeps its missing values — the counterexample).
No hypothesis on any other column is needed: an all-missing numerical
column elsewhere in the table does not disturb the guarantees for the
remaining columns. -/
theorem claim_C4_imputation (df : DataFrame) :
    (∀ name cells, (name, ColData.cat cells) ∈ df →
      name ∈ (identifyColumnTypes df).1 →
      (name, ColData.cat (cells.map (fun c => some (c.getD "Unknown")))) ∈
        handleMissingValuesDF (identifyColumnTypes df).1
          (identifyColumnTypes df).2 df) ∧
    (∀ name cells, (name, ColData.num cells) ∈ df →
      name ∈ (identifyColumnTypes df).2 → name ≠ "mental_health_risk" →
      (name, ColData.num (fillMedianCol cells)) ∈
        handleMissingValuesDF (identifyColumnTypes df).1
          (identifyColumnTypes df).2 df) ∧
    (∀ name cells, (name, ColData.cat cells) ∈
        handleMissingValuesDF (identifyColumnTypes df).1
          (identifyColumnTypes df).2 df →
      name ∈ (identifyColumnTypes df).1 → cells.all Option.isSome = true) ∧
    (∀ name cells, (name, ColData.num cells) ∈
        handleMissingValuesDF (identifyColumnTypes df).1
          (identifyColumnTypes df).2 df →
      name ∈ (identifyColumnTypes df).2 → name ≠ "mental_health_risk" →
      (∀ cells0, (name, ColData.num cells0) ∈ df →
        cells0 = [] ∨ cells0.any Option.isSome = true) →
      cells.all Option.isSome = true) := by
  refine ⟨?_, ?_, ?_, ?_⟩
  · intro name cells hmem hin
    refine List.mem_map.2 ⟨(name, ColData.cat cells), hmem, ?_⟩
    simp [handleMissingCol, hin]
  · intro name cells hmem hin hne
    refine List.mem_map.2 ⟨(name, ColData.num cells), hmem, ?_⟩
    dsimp only [handleMissingCol]
    rw [if_pos ⟨hin, hne⟩]
  · intro name cells hmem hin
    rcases List.mem_map.1 hmem with ⟨⟨n0, col0⟩, he, heq⟩
    dsimp only at heq
    rcases Prod.mk.injEq .. ▸ heq with ⟨rfl, hc⟩
    rcases col0 with cells0 | cells0 <;> dsimp only [handleMissingCol] at hc
    · by_cases h0 : n0 ∈ (identifyColumnTypes df).1
      · rw [if_pos h0] at hc
        rcases ColData.cat.inj hc.symm with rfl
        simp
      · exact absurd hin h0
    · by_cases h0 : n0 ∈ (identifyColumnTypes df).2 ∧ n0 ≠ "mental_health_risk"
      · rw [if_pos h0] at hc
        exact absurd hc (by simp)
      · rw [if_neg h0] at hc
        exact absurd hc (by simp)
  · intro name cells hmem hin hne hloc
    rcases List.mem_map.1 hmem with ⟨⟨n0, col0⟩, he, heq⟩
    dsimp only at heq
    rcases Prod.mk.injEq .. ▸ heq with ⟨rfl, hc⟩
    rcases col0 with cells0 | cells0 <;> dsimp only [handleMissingCol] at hc
    · by_cases h0 : n0 ∈ (identifyColumnTypes df).1
      · rw [if_pos h0] at hc
        exact absurd hc (by simp)
      · rw [if_neg h0] at hc
        exact absurd hc (by simp)
    · by_cases h0 : n0 ∈ (identifyColumnTypes df).2 ∧ n0 ≠ "mental_health_risk"
      · rw [if_pos h0] at hc
        rcases ColData.num.inj hc.symm with rfl
        exact fillMedianCol_noMissing cells0 (hloc cells0 he)
      · exact absurd ⟨hin, hne⟩ h0

/-- Claim C4, witness: imputation on a concrete mixed table — the
missing `Gender` cell becomes `Unknown` even though the numerical
`self_employed` column next to it is entirely missing. -/
theorem claim_C4_imputation_witness :
    ("Gender", ColData.cat [some "M", some "Unknown"]) ∈
      handleMissingValuesDF (identifyColumnTypes dfImputeSample).1
        (identifyColumnTypes dfImputeSample).2 dfImputeSample :=
  (claim_C4_imputation dfImputeSample).1 "Gender" [some "M", none]
    (by decide) (by decide)

/-- Claim C6: feature selection outputs exactly the candidate columns
present in the table, in the candidate list's declared order, followed
by the label column last; being a pure function of the column set, the
resulting ordered name list is identical across repeated runs on
identical input. -/
theorem claim_C6_feature_selection :
    (∀ cols : List String,
      (∀ c, c ∈ selectFeatureNames cols ↔
        ((c ∈ feature_columns ∧ c ∈ cols) ∨ c = "mental_health_risk")) ∧
      (selectFeatureNames cols).dropLast.Sublist feature_columns ∧
      (selectFeatureNames cols).getLast? = some "mental_health_risk") ∧
    (∀ df : DataFrame, hasCol df "mental_health_risk" = true →
      ∃ out, selectFeaturesDF df = Except.ok out ∧
        out.map Prod.fst = selectFeatureNames (df.map Prod.fst) ∧
        ∀ p ∈ out, getCol df p.1 = some p.2) := by
  constructor
  · intro cols
    refine ⟨?_, ?_, ?_⟩
    · intro c
      simp [selectFeatureNames, List.mem_filter, List.mem_append]
    · rw [selectFeatureNames, List.dropLast_concat]
      exact List.filter_sublist _
    · rw [selectFeatureNames, List.getLast?_concat]
  · intro df hrisk
    have hnames : ∀ n ∈ feature_columns.filter (fun c => hasCol df c)
        ++ ["mental_health_risk"], hasCol df n = true := by
      intro n hn
      rcases List.mem_append.1 hn with hn | hn
      · exact (List.mem_filter.1 hn).2
      · simp at hn
        subst hn
        exact hrisk
    rcases projectCols_ok df _ hnames with ⟨out, hok, hfst, hget⟩
    refine ⟨out, ?_, ?_, hget⟩
    · simpa [selectFeaturesDF] using hok
    · rw [hfst, selectFeatureNames]
      congr 1
      apply List.filter_congr
      intro c _
      by_cases hc : c ∈ df.map Prod.fst
      · rw [(hasCol_iff df c).2 hc, decide_eq_true hc]
      · have hfalse : hasCol df c = false :=
          Bool.not_eq_true _ ▸ (fun hh => hc ((hasCol_iff df c).1 hh))
        rw [hfalse, decide_eq_false hc]

/-- Claim C6, witness: feature selection evaluated on a concrete table
containing `Age` and the target. -/
theorem claim_C6_feature_selection_witness :
    ∃ out, selectFeaturesDF dfSelectSample = Except.ok out ∧
      out.map Prod.fst = selectFeatureNames (dfSelectSample.map Prod.fst) ∧
      ∀ p ∈ out, getCol dfSelectSample p.1 = some p.2 :=
  claim_C6_feature_selection.2 dfSelectSample (by decide)

/-- Claim C8, counterexample: a table missing only the `Gender` column
(a column referenced in §4 of the spec) makes the pipeline raise a
`KeyError` instead of completing — refuting the claim that absence of
any §4 column is tolerated. -/
theorem claim_C8_counterexample :
    cleanDataDF dfNoGenderCol = Except.error "KeyError: Gender" := by
  rfl

/-- Claim C8 (amended): only columns the pipeline accesses behind a
presence guard may be absent — the five support-score columns and the
columns merely iterated by imputation and encoding.  For every input
table, absence of each directly-indexed column raises that column's
`KeyError` (given the columns the pipeline indexes before it, so that
the run reaches the unguarded access): `Gender`, then `Age`, then the
four label sources `treatment`, `work_interfere`,
`mental_health_consequence`, `family_history`, then `remote_work` and
`no_employees`; and conversely, whenever all eight directly-indexed
columns are present the pipeline completes without error, however many
guarded columns are missing. -/
theorem claim_C8_absent_columns :
    (∀ df : DataFrame, getCol df "Gender" = none →
      cleanDataDF df = Except.error "KeyError: Gender") ∧
    (∀ df : DataFrame, hasCol df "Gender" = true →
      getCol df "Age" = none →
      cleanDataDF df = Except.error "KeyError: Age") ∧
    (∀ df : DataFrame, hasCol df "Gender" = true → hasCol df "Age" = true →
      getCol df "treatment" = none →
      cleanDataDF df = Except.error "KeyError: treatment") ∧
    (∀ df : DataFrame, hasCol df "Gender" = true → hasCol df "Age" = true →
      hasCol df "treatment" = true →
      getCol df "work_interfere" = none →
      cleanDataDF df = Except.error "KeyError: work_interfere") ∧
    (∀ df : DataFrame, hasCol df "Gender" = true → hasCol df "Age" = true →
      hasCol df "treatment" = true → hasCol df "work_interfere" = true →
      getCol df "mental_health_consequence" = none →
      cleanDataDF df = Except.error "KeyError: mental_health_consequence") ∧
    (∀ df : DataFrame, hasCol df "Gender" = true → hasCol df "Age" = true →
      hasCol df "treatment" = true → hasCol df "work_interfere" = true →
      hasCol df "mental_health_consequence" = true →
      getCol df "family_history" = none →
      cleanDataDF df = Except.error "KeyError: family_history") ∧
    (∀ df : DataFrame, hasCol df "Gender" = true → hasCol df "Age" = true →
      hasCol df "treatment" = true → hasCol df "work_interfere" = true →
      hasCol df "mental_health_consequence" = true →
      hasCol df "family_history" = true →
      getCol df "remote_work" = none →
      cleanDataDF df = Except.error "KeyError: remote_work") ∧
    (∀ df : DataFrame, hasCol df "Gender" = true → hasCol df "Age" = true →
      hasCol df "treatment" = true → hasCol df "work_interfere" = true →
      hasCol df "mental_health_consequence" = true →
      hasCol df "family_history" = true →
      hasCol df "remote_work" = true →
      getCol df "no_employees" = none →
      cleanDataDF df = Except.error "KeyError: no_employees") ∧
    (∀ df : DataFrame, hasCol df "Gender" = true → hasCol df "Age" = true →
      hasCol df "treatment" = true → hasCol df "work_interfere" = true →
      hasCol df "mental_health_consequence" = true →
      hasCol df "family_history" = true →
      hasCol df "remote_work" = true →
      hasCol df "no_employees" = true →
      ∃ out, cleanDataDF df = Except.ok out) := by
  refine ⟨?_, ?_, ?_, ?_, ?_, ?_, ?_, ?_, ?_⟩
  · intro df h
    simp only [cleanDataDF, cleanGenderColumnDF, h]
    rfl
  · intro df hG hA
    obtain ⟨g, hg⟩ := hasCol_some df "Gender" hG
    obtain ⟨df1, ok1, _, eq1⟩ := cleanGender_summary df g hg
    have herr : cleanAgeColumnDF df1 = Except.error "KeyError: Age" := by
      apply cleanAge_error
      rw [eq1 "Age" (by decide)]
      exact hA
    simp only [cleanDataDF, ok1, exceptBind_ok, herr, exceptBind_error]
  · intro df hG hA hT
    obtain ⟨g, hg⟩ := hasCol_some df "Gender" hG
    obtain ⟨df1, ok1, _, eq1⟩ := cleanGender_summary df g hg
    obtain ⟨a, ha1⟩ : ∃ c, getCol df1 "Age" = some c := by
      rw [eq1 "Age" (by decide)]
      exact hasCol_some df "Age" hA
    obtain ⟨df2, ok2, _, eq2⟩ := cleanAge_summary df1 a ha1
    have herr : createTargetVariableDF df2 = Except.error "KeyError: treatment" := by
      apply createTarget_error_treatment
      rw [eq2 "treatment" (by decide), eq1 "treatment" (by decide), hT]
      rfl
    simp only [cleanDataDF, ok1, exceptBind_ok, ok2, exceptBind_ok, herr, exceptBind_error]
  · intro df hG hA hT hW
    obtain ⟨g, hg⟩ := hasCol_some df "Gender" hG
    obtain ⟨df1, ok1, _, eq1⟩ := cleanGender_summary df g hg
    obtain ⟨a, ha1⟩ : ∃ c, getCol df1 "Age" = some c := by
      rw [eq1 "Age" (by decide)]
      exact hasCol_some df "Age" hA
    obtain ⟨df2, ok2, _, eq2⟩ := cleanAge_summary df1 a ha1
    obtain ⟨t0, ht0⟩ := hasCol_some df "treatment" hT
    obtain ⟨t2, ht2⟩ : ∃ c, getCol df2 "treatment" = some c := by
      rw [eq2 "treatment" (by decide), eq1 "treatment" (by decide), ht0]
      exact ⟨_, rfl⟩
    have herr : createTargetVariableDF df2 = Except.error "KeyError: work_interfere" := by
      apply createTarget_error_work df2 t2 ht2
      rw [eq2 "work_interfere" (by decide), eq1 "work_interfere" (by decide), hW]
      rfl
    simp only [cleanDataDF, ok1, exceptBind_ok, ok2, exceptBind_ok, herr, exceptBind_error]
  · intro df hG hA hT hW hM
    obtain ⟨g, hg⟩ := hasCol_some df "Gender" hG
    obtain ⟨df1, ok1, _, eq1⟩ := cleanGender_summary df g hg
    obtain ⟨a, ha1⟩ : ∃ c, getCol df1 "Age" = some c := by
      rw [eq1 "Age" (by decide)]
      exact hasCol_some df "Age" hA
    obtain ⟨df2, ok2, _, eq2⟩ := cleanAge_summary df1 a ha1
    obtain ⟨t0, ht0⟩ := hasCol_some df "treatment" hT
    obtain ⟨w0, hw0⟩ := hasCol_some df "work_interfere" hW
    obtain ⟨t2, ht2⟩ : ∃ c, getCol df2 "treatment" = some c := by
      rw [eq2 "treatment" (by decide), eq1 "treatment" (by decide), ht0]
      exact ⟨_, rfl⟩
    obtain ⟨w2, hw2⟩ : ∃ c, getCol df2 "work_interfere" = some c := by
      rw [eq2 "work_interfere" (by decide), eq1 "work_interfere" (by decide), hw0]
      exact ⟨_, rfl⟩
    have herr : createTargetVariableDF df2
        = Except.error "KeyError: mental_health_consequence" := by
      apply createTarget_error_mhc df2 t2 w2 ht2 hw2
      rw [eq2 "mental_health_consequence" (by decide),
        eq1 "mental_health_consequence" (by decide), hM]
      rfl
    simp only [cleanDataDF, ok1, exceptBind_ok, ok2, exceptBind_ok, herr, exceptBind_error]
  · intro df hG hA hT hW hM hF
    obtain ⟨g, hg⟩ := hasCol_some df "Gender" hG
    obtain ⟨df1, ok1, _, eq1⟩ := cleanGender_summary df g hg
    obtain ⟨a, ha1⟩ : ∃ c, getCol df1 "Age" = some c := by
      rw [eq1 "Age" (by decide)]
      exact hasCol_some df "Age" hA
    obtain ⟨df2, ok2, _, eq2⟩ := cleanAge_summary df1 a ha1
    obtain ⟨t0, ht0⟩ := hasCol_some df "treatment" hT
    obtain ⟨w0, hw0⟩ := hasCol_some df "work_interfere" hW
    obtain ⟨m0, hm0⟩ := hasCol_some df "mental_health_consequence" hM
    obtain ⟨t2, ht2⟩ : ∃ c, getCol df2 "treatment" = some c := by
      rw [eq2 "treatment" (by decide), eq1 "treatment" (by decide), ht0]
      exact ⟨_, rfl⟩
    obtain ⟨w2, hw2⟩ : ∃ c, getCol df2 "work_interfere" = some c := by
      rw [eq2 "work_interfere" (by decide), eq1 "work_interfere" (by decide), hw0]
      exact ⟨_, rfl⟩
    obtain ⟨m2, hm2⟩ : ∃ c, getCol df2 "mental_health_consequence" = some c := by
      rw [eq2 "mental_health_consequence" (by decide),
        eq1 "mental_health_consequence" (by decide), hm0]
      exact ⟨_, rfl⟩
    have herr : createTargetVariableDF df2 = Except.error "KeyError: family_history" := by
      apply createTarget_error_family df2 t2 w2 m2 ht2 hw2 hm2
      rw [eq2 "family_history" (by decide), eq1 "family_history" (by decide), hF]
      rfl
    simp only [cleanDataDF, ok1, exceptBind_ok, ok2, exceptBind_ok, herr, exceptBind_error]
  · intro df hG hA hT hW hM hF hR
    obtain ⟨g, hg⟩ := hasCol_some df "Gender" hG
    obtain ⟨df1, ok1, _, eq1⟩ := cleanGender_summary df g hg
    obtain ⟨a, ha1⟩ : ∃ c, getCol df1 "Age" = some c := by
      rw [eq1 "Age" (by decide)]
      exact hasCol_some df "Age" hA
    obtain ⟨df2, ok2, _, eq2⟩ := cleanAge_summary df1 a ha1
    obtain ⟨t0, ht0⟩ := hasCol_some df "treatment" hT
    obtain ⟨w0, hw0⟩ := hasCol_some df "work_interfere" hW
    obtain ⟨m0, hm0⟩ := hasCol_some df "mental_health_consequence" hM
    obtain ⟨f0, hf0⟩ := hasCol_some df "family_history" hF
    obtain ⟨t2, ht2⟩ : ∃ c, getCol df2 "treatment" = some c := by
      rw [eq2 "treatment" (by decide), eq1 "treatment" (by decide), ht0]
      exact ⟨_, rfl⟩
    obtain ⟨w2, hw2⟩ : ∃ c, getCol df2 "work_interfere" = some c := by
      rw [eq2 "work_interfere" (by decide), eq1 "work_interfere" (by decide), hw0]
      exact ⟨_, rfl⟩
    obtain ⟨m2, hm2⟩ : ∃ c, getCol df2 "mental_health_consequence" = some c := by
      rw [eq2 "mental_health_consequence" (by decide),
        eq1 "mental_health_consequence" (by decide), hm0]
      exact ⟨_, rfl⟩
    obtain ⟨f2, hf2⟩ : ∃ c, getCol df2 "family_history" = some c := by
      rw [eq2 "family_history" (by decide), eq1 "family_history" (by decide), hf0]
      exact ⟨_, rfl⟩
    obtain ⟨df3, ok3, pres3, eq3⟩ := createTarget_summary df2 t2 w2 m2 f2 ht2 hw2 hm2 hf2
    have herr : createFeatureEngineeringDF
        (handleMissingValuesDF (identifyColumnTypes df).1 (identifyColumnTypes df).2 df3)
        = Except.error "KeyError: remote_work" := by
      apply featEng_error_remote
      rw [getCol_handleMissing, eq3 "remote_work" (by decide),
        eq2 "remote_work" (by decide), eq1 "remote_work" (by decide), hR]
      rfl
    simp only [cleanDataDF, ok1, exceptBind_ok, ok2, exceptBind_ok, ok3, exceptBind_ok,
      herr, exceptBind_error]
  · intro df hG hA hT hW hM hF hR hN
    obtain ⟨g, hg⟩ := hasCol_some df "Gender" hG
    obtain ⟨df1, ok1, _, eq1⟩ := cleanGender_summary df g hg
    obtain ⟨a, ha1⟩ : ∃ c, getCol df1 "Age" = some c := by
      rw [eq1 "Age" (by decide)]
      exact hasCol_some df "Age" hA
    obtain ⟨df2, ok2, _, eq2⟩ := cleanAge_summary df1 a ha1
    obtain ⟨t0, ht0⟩ := hasCol_some df "treatment" hT
    obtain ⟨w0, hw0⟩ := hasCol_some df "work_interfere" hW
    obtain ⟨m0, hm0⟩ := hasCol_some df "mental_health_consequence" hM
    obtain ⟨f0, hf0⟩ := hasCol_some df "family_history" hF
    obtain ⟨r0, hr0⟩ := hasCol_some df "remote_work" hR
    obtain ⟨t2, ht2⟩ : ∃ c, getCol df2 "treatment" = some c := by
      rw [eq2 "treatment" (by decide), eq1 "treatment" (by decide), ht0]
      exact ⟨_, rfl⟩
    obtain ⟨w2, hw2⟩ : ∃ c, getCol df2 "work_interfere" = some c := by
      rw [eq2 "work_interfere" (by decide), eq1 "work_interfere" (by decide), hw0]
      exact ⟨_, rfl⟩
    obtain ⟨m2, hm2⟩ : ∃ c, getCol df2 "mental_health_consequence" = some c := by
      rw [eq2 "mental_health_consequence" (by decide),
        eq1 "mental_health_consequence" (by decide), hm0]
      exact ⟨_, rfl⟩
    obtain ⟨f2, hf2⟩ : ∃ c, getCol df2 "family_history" = some c := by
      rw [eq2 "family_history" (by decide), eq1 "family_history" (by decide), hf0]
      exact ⟨_, rfl⟩
    obtain ⟨df3, ok3, pres3, eq3⟩ := createTarget_summary df2 t2 w2 m2 f2 ht2 hw2 hm2 hf2
    obtain ⟨r4, hr4⟩ : ∃ c, getCol
        (handleMissingValuesDF (identifyColumnTypes df).1 (identifyColumnTypes df).2 df3)
        "remote_work" = some c := by
      rw [getCol_handleMissing, eq3 "remote_work" (by decide),
        eq2 "remote_work" (by decide), eq1 "remote_work" (by decide), hr0]
      exact ⟨_, rfl⟩
    obtain ⟨w4, hw4⟩ : ∃ c, getCol
        (handleMissingValuesDF (identifyColumnTypes df).1 (identifyColumnTypes df).2 df3)
        "work_interfere" = some c := by
      rw [getCol_handleMissing, eq3 "work_interfere" (by decide),
        eq2 "work_interfere" (by decide), eq1 "work_interfere" (by decide), hw0]
      exact ⟨_, rfl⟩
    have herr : createFeatureEngineeringDF
        (handleMissingValuesDF (identifyColumnTypes df).1 (identifyColumnTypes df).2 df3)
        = Except.error "KeyError: no_employees" := by
      apply featEng_error_no_employees _ r4 w4 hr4 hw4
      rw [getCol_handleMissing, eq3 "no_employees" (by decide),
        eq2 "no_employees" (by decide), eq1 "no_employees" (by decide), hN]
      rfl
    simp only [cleanDataDF, ok1, exceptBind_ok, ok2, exceptBind_ok, ok3, exceptBind_ok,
      herr, exceptBind_error]
  · intro df hG hA hT hW hM hF hR hN
    obtain ⟨g, hg⟩ := hasCol_some df "Gender" hG
    obtain ⟨df1, ok1, _, eq1⟩ := cleanGender_summary df g hg
    obtain ⟨a, ha1⟩ : ∃ c, getCol df1 "Age" = some c := by
      rw [eq1 "Age" (by decide)]
      exact hasCol_some df "Age" hA
    obtain ⟨df2, ok2, _, eq2⟩ := cleanAge_summary df1 a ha1
    obtain ⟨t0, ht0⟩ := hasCol_some df "treatment" hT
    obtain ⟨w0, hw0⟩ := hasCol_some df "work_interfere" hW
    obtain ⟨m0, hm0⟩ := hasCol_some df "mental_health_consequence" hM
    obtain ⟨f0, hf0⟩ := hasCol_some df "family_history" hF
    obtain ⟨r0, hr0⟩ := hasCol_some df "remote_work" hR
    obtain ⟨n0, hn0⟩ := hasCol_some df "no_employees" hN
    obtain ⟨t2, ht2⟩ : ∃ c, getCol df2 "treatment" = some c := by
      rw [eq2 "treatment" (by decide), eq1 "treatment" (by decide), ht0]
      exact ⟨_, rfl⟩
    obtain ⟨w2, hw2⟩ : ∃ c, getCol df2 "work_interfere" = some c := by
      rw [eq2 "work_interfere" (by decide), eq1 "work_interfere" (by decide), hw0]
      exact ⟨_, rfl⟩
    obtain ⟨m2, hm2⟩ : ∃ c, getCol df2 "mental_health_consequence" = some c := by
      rw [eq2 "mental_health_consequence" (by decide),
        eq1 "mental_health_consequence" (by decide), hm0]
      exact ⟨_, rfl⟩
    obtain ⟨f2, hf2⟩ : ∃ c, getCol df2 "family_history" = some c := by
      rw [eq2 "family_history" (by decide), eq1 "family_history" (by decide), hf0]
      exact ⟨_, rfl⟩
    obtain ⟨df3, ok3, pres3, eq3⟩ := createTarget_summary df2 t2 w2 m2 f2 ht2 hw2 hm2 hf2
    obtain ⟨r4, hr4⟩ : ∃ c, getCol
        (handleMissingValuesDF (identifyColumnTypes df).1 (identifyColumnTypes df).2 df3)
        "remote_work" = some c := by
      rw [getCol_handleMissing, eq3 "remote_work" (by decide),
        eq2 "remote_work" (by decide), eq1 "remote_work" (by decide), hr0]
      exact ⟨_, rfl⟩
    obtain ⟨w4, hw4⟩ : ∃ c, getCol
        (handleMissingValuesDF (identifyColumnTypes df).1 (identifyColumnTypes df).2 df3)
        "work_interfere" = some c := by
      rw [getCol_handleMissing, eq3 "work_interfere" (by decide),
        eq2 "work_interfere" (by decide), eq1 "work_interfere" (by decide), hw0]
      exact ⟨_, rfl⟩
    obtain ⟨n4, hn4⟩ : ∃ c, getCol
        (handleMissingValuesDF (identifyColumnTypes df).1 (identifyColumnTypes df).2 df3)
        "no_employees" = some c := by
      rw [getCol_handleMissing, eq3 "no_employees" (by decide),
        eq2 "no_employees" (by decide), eq1 "no_employees" (by decide), hn0]
      exact ⟨_, rfl⟩
    obtain ⟨df5, ok5, eq5⟩ := featEng_summary
      (handleMissingValuesDF (identifyColumnTypes df).1 (identifyColumnTypes df).2 df3)
      r4 w4 n4 hr4 hw4 hn4
    obtain ⟨rc3, hrc3⟩ := hasCol_some df3 "mental_health_risk" pres3
    obtain ⟨rc5, hrc5⟩ : ∃ c, getCol df5 "mental_health_risk" = some c := by
      rw [eq5 "mental_health_risk" (by decide) (by decide) (by decide) (by decide),
        getCol_handleMissing, hrc3]
      exact ⟨_, rfl⟩
    obtain ⟨out, okS⟩ := selectFeaturesDF_ok
      (encodeCategoricalVariablesDF (identifyColumnTypes df).1 df5)
      (hasCol_encode _ _ _ (getCol_hasCol _ _ _ hrc5))
    refine ⟨out, ?_⟩
    simp only [cleanDataDF, ok1, exceptBind_ok, ok2, exceptBind_ok, ok3, exceptBind_ok,
      ok5, exceptBind_ok, okS]

/-- Claim C8, witness: the amended theorem applied at concrete inputs —
the empty table lacks `Gender` and errors, while the table holding
exactly the eight directly-indexed columns and no support column
completes. -/
theorem claim_C8_absent_columns_witness :
    cleanDataDF [] = Except.error "KeyError: Gender" ∧
    (∃ out, cleanDataDF dfNoSupportCols = Except.ok out) :=
  ⟨claim_C8_absent_columns.1 [] rfl,
   claim_C8_absent_columns.2.2.2.2.2.2.2.2 dfNoSupportCols (by decide) (by decide)
     (by decide) (by decide) (by decide) (by decide) (by decide) (by decide)⟩
